import Mathlib

/-!
Verification of the greenlight-backend credential vault and node-identity
lifecycle (src/greenlight-backend/src).

Modelling conventions:
- Rust byte strings, `String` and `&str` values are modelled as `List Nat`
  (their UTF-8 bytes).  Error messages inside `AppError` are kept as Lean
  `String` literals, matching the static prefix of the `format!` strings
  in the source.
- Calls into third-party crates (pbkdf2, aes_gcm, base64, argon2, bip39,
  rand, jsonwebtoken, gl_client) and the randomness they draw are modelled
  as fields of a `Collab` structure: the repository code under
  verification is the composition logic around those collaborators, which
  is translated literally from the source.  Theorems that need a contract
  of a collaborator (for example that base64 decoding inverts encoding)
  take it as an explicit hypothesis.
- The sqlx-backed `UserRepository` queries are modelled as pure operations
  on a `List User` store (database connectivity errors are not modelled).
- Handler functions additionally return the trace of collaborator calls
  they perform (an `Event` list) and the resulting store, so that claims
  of the form "no decryption is performed" or "nothing is persisted" can
  be stated directly.
-/

/-- Decode a byte list as UTF-8 (RFC 3629), returning the list of decoded
code points, or `none` if the bytes are not valid UTF-8.  Models Rust
`String::from_utf8` succeeding or failing. -/
def utf8Decode : List Nat → Option (List Nat)
  | [] => some []
  | b :: rest =>
    if b ≤ 0x7F then
      (utf8Decode rest).map (fun cs => b :: cs)
    else if 0xC2 ≤ b ∧ b ≤ 0xDF then
      match rest with
      | b1 :: rest1 =>
        if 0x80 ≤ b1 ∧ b1 ≤ 0xBF then
          (utf8Decode rest1).map (fun cs => ((b - 0xC0) * 0x40 + (b1 - 0x80)) :: cs)
        else none
      | [] => none
    else if 0xE0 ≤ b ∧ b ≤ 0xEF then
      match rest with
      | b1 :: b2 :: rest2 =>
        if ((if b = 0xE0 then 0xA0 else 0x80) ≤ b1 ∧ b1 ≤ (if b = 0xED then 0x9F else 0xBF))
            ∧ (0x80 ≤ b2 ∧ b2 ≤ 0xBF) then
          (utf8Decode rest2).map
            (fun cs => ((b - 0xE0) * 0x1000 + (b1 - 0x80) * 0x40 + (b2 - 0x80)) :: cs)
        else none
      | _ => none
    else if 0xF0 ≤ b ∧ b ≤ 0xF4 then
      match rest with
      | b1 :: b2 :: b3 :: rest3 =>
        if ((if b = 0xF0 then 0x90 else 0x80) ≤ b1 ∧ b1 ≤ (if b = 0xF4 then 0x8F else 0xBF))
            ∧ (0x80 ≤ b2 ∧ b2 ≤ 0xBF) ∧ (0x80 ≤ b3 ∧ b3 ≤ 0xBF) then
          (utf8Decode rest3).map
            (fun cs => ((b - 0xF0) * 0x40000 + (b1 - 0x80) * 0x1000
                         + (b2 - 0x80) * 0x40 + (b3 - 0x80)) :: cs)
        else none
      | _ => none
    else none

/-- A byte list is valid UTF-8 iff it decodes. -/
def isValidUtf8 (bs : List Nat) : Bool := (utf8Decode bs).isSome

/-- Number of characters (decoded code points) of a UTF-8 byte list;
0 if the list is not valid UTF-8. -/
def utf8CharCount (bs : List Nat) : Nat := ((utf8Decode bs).getD []).length

/-- The error enumeration of src/error.rs (`AppError`), message payloads
kept as the static prefix of the corresponding `format!` string. -/
inductive AppError where
  | Database (msg : String)
  | Authentication (msg : String)
  | Authorization (msg : String)
  | Validation (msg : String)
  | Greenlight (msg : String)
  | Cryptography (msg : String)
  | Internal (msg : String)
  | NotFound (msg : String)
  | BadRequest (msg : String)
deriving DecidableEq, Repr

deriving instance DecidableEq for Except

/-- The HTTP status mapping of `impl IntoResponse for AppError`
(src/error.rs). -/
def AppError.statusCode : AppError → Nat
  | .Authentication _ => 401
  | .Authorization _ => 403
  | .Validation _ => 400
  | .NotFound _ => 404
  | .BadRequest _ => 400
  | _ => 500

/-- External collaborators: third-party crate calls made by the source,
specified at their interface boundary, together with the random draws they
consume.  Each field corresponds to one crate-level operation; repository
code is modelled as the literal composition of these. -/
structure Collab where
  /-- pbkdf2::pbkdf2_hmac with Sha256 and 100000 iterations:
  password, salt to a 32-byte key.  Deterministic, total. -/
  deriveKey : List Nat → List Nat → List Nat
  /-- aes_gcm Aes256Gcm Aead encrypt: key, nonce, plaintext to ciphertext
  (which includes the 16-byte tag). -/
  aeadEnc : List Nat → List Nat → List Nat → List Nat
  /-- aes_gcm Aes256Gcm Aead decrypt: key, nonce, ciphertext to plaintext,
  or none when authentication fails. -/
  aeadDec : List Nat → List Nat → List Nat → Option (List Nat)
  /-- base64 STANDARD engine encode. -/
  b64Encode : List Nat → List Nat
  /-- base64 STANDARD engine decode; none on invalid base64. -/
  b64Decode : List Nat → Option (List Nat)
  /-- argon2 PasswordHash new: parse a stored PHC hash string; none when
  malformed.  The parsed representation is kept opaque. -/
  parseHash : List Nat → Option (List Nat)
  /-- argon2 verify of a password against a parsed hash:
  true iff the password matches. -/
  argonVerify : List Nat → List Nat → Bool
  /-- argon2 hash of a password (fresh SaltString randomness folded into
  the choice of this function); none on hashing failure. -/
  argonHash : List Nat → Option (List Nat)
  /-- the 32 bytes of OsRng entropy drawn by generate_mnemonic. -/
  entropy : List Nat
  /-- bip39 Mnemonic from_entropy rendered to a string;
  none on failure. -/
  mnemonicFromEntropy : List Nat → Option (List Nat)
  /-- bip39 Mnemonic parse_in_normalized (English); none when the phrase
  does not parse.  The parsed mnemonic is kept opaque. -/
  parseMnemonic : List Nat → Option (List Nat)
  /-- bip39 to_seed with empty passphrase on a parsed mnemonic. -/
  mnemonicSeed : List Nat → List Nat
  /-- gl_client node registration: seed to device credentials, or an
  error message; every failure inside GreenlightService register_node is
  mapped to AppError Greenlight by the source. -/
  glRegister : List Nat → Except String (List Nat)
  /-- jsonwebtoken encode for a user id; none on failure. -/
  jwtSign : Nat → Option (List Nat)

/-- SALT_SIZE in src/services/crypto.rs. -/
def SALT_SIZE : Nat := 32

/-- NONCE_SIZE in src/services/crypto.rs. -/
def NONCE_SIZE : Nat := 12

/-- CryptoService::hash_password (crypto.rs lines 21-30). -/
def CryptoService.hash_password (C : Collab) (password : List Nat) :
    Except AppError (List Nat) :=
  match C.argonHash password with
  | none => .error (.Cryptography "Failed to hash password")
  | some h => .ok h

/-- CryptoService::verify_password (crypto.rs lines 33-39). -/
def CryptoService.verify_password (C : Collab) (password hash : List Nat) :
    Except AppError Bool :=
  match C.parseHash hash with
  | none => .error (.Cryptography "Invalid hash format")
  | some parsed_hash => .ok (C.argonVerify password parsed_hash)

/-- CryptoService::generate_mnemonic (crypto.rs lines 42-49). -/
def CryptoService.generate_mnemonic (C : Collab) : Except AppError (List Nat) :=
  match C.mnemonicFromEntropy C.entropy with
  | none => .error (.Cryptography "Failed to generate mnemonic")
  | some m => .ok m

/-- CryptoService::encrypt (crypto.rs lines 59-84).  The fresh random
salt and nonce drawn from OsRng are passed explicitly.  The aes_gcm
encrypt call is modelled as total (its only failure mode, plaintext
larger than the AES-GCM length bound, is unreachable here), so the
Result is always Ok. -/
def CryptoService.encrypt (C : Collab) (salt nonce_bytes : List Nat)
    (data password : List Nat) : Except AppError (List Nat) :=
  let key_bytes := C.deriveKey password salt
  let ciphertext := C.aeadEnc key_bytes nonce_bytes data
  .ok (C.b64Encode (salt ++ nonce_bytes ++ ciphertext))

/-- CryptoService::decrypt (crypto.rs lines 87-115). -/
def CryptoService.decrypt (C : Collab) (encrypted_data password : List Nat) :
    Except AppError (List Nat) :=
  match C.b64Decode encrypted_data with
  | none => .error (.Cryptography "Invalid base64")
  | some data =>
    if data.length < SALT_SIZE + NONCE_SIZE then
      .error (.Cryptography "Invalid encrypted data length")
    else
      let salt := data.take SALT_SIZE
      let nonce_bytes := (data.drop SALT_SIZE).take NONCE_SIZE
      let ciphertext := data.drop (SALT_SIZE + NONCE_SIZE)
      let key_bytes := C.deriveKey password salt
      match C.aeadDec key_bytes nonce_bytes ciphertext with
      | none => .error (.Cryptography "Decryption failed")
      | some plaintext =>
        if isValidUtf8 plaintext then .ok plaintext
        else .error (.Cryptography "Invalid UTF-8")

/-- CryptoService::validate_mnemonic (crypto.rs lines 118-123). -/
def CryptoService.validate_mnemonic (C : Collab) (mnemonic : List Nat) :
    Except AppError Bool :=
  match C.parseMnemonic mnemonic with
  | some _ => .ok true
  | none => .ok false

/-- CryptoService::mnemonic_to_seed (crypto.rs lines 126-132). -/
def CryptoService.mnemonic_to_seed (C : Collab) (mnemonic : List Nat) :
    Except AppError (List Nat) :=
  match C.parseMnemonic mnemonic with
  | none => .error (.Cryptography "Invalid mnemonic")
  | some m => .ok (C.mnemonicSeed m)

/-- The users row (src/models/user.rs, struct User); `id` models the Uuid,
timestamps model `DateTime<Utc>` as abstract instants. -/
structure User where
  id : Nat
  public_key : List Nat
  password_hash : List Nat
  encrypted_seed : Option (List Nat)
  encrypted_device_creds : Option (List Nat)
  created_at : Nat
  updated_at : Nat
deriving DecidableEq, Repr

/-- CreateUserRequest (src/models/user.rs). -/
structure CreateUserRequest where
  public_key : List Nat
  password : List Nat
deriving DecidableEq, Repr

/-- LoginRequest (src/models/user.rs). -/
structure LoginRequest where
  public_key : List Nat
  password : List Nat
deriving DecidableEq, Repr

/-- NodeRegisterRequest (src/handlers/node.rs). -/
structure NodeRegisterRequest where
  encrypted_seed : List Nat
  password : List Nat
deriving DecidableEq, Repr

/-- UserRepository::create_user (user.rs lines 38-64): INSERT of a fresh
row (encrypted_device_creds starts NULL, both timestamps set to now);
the fresh Uuid and the clock are passed explicitly. -/
def UserRepository.create_user (db : List User) (id now : Nat)
    (public_key password_hash encrypted_seed : List Nat) : User × List User :=
  let user : User :=
    { id := id, public_key := public_key, password_hash := password_hash,
      encrypted_seed := some encrypted_seed, encrypted_device_creds := none,
      created_at := now, updated_at := now }
  (user, db ++ [user])

/-- UserRepository::find_by_public_key (user.rs lines 66-75). -/
def UserRepository.find_by_public_key (db : List User) (public_key : List Nat) :
    Option User :=
  db.find? (fun u => u.public_key = public_key)

/-- UserRepository::find_by_id (user.rs lines 77-86). -/
def UserRepository.find_by_id (db : List User) (id : Nat) : Option User :=
  db.find? (fun u => u.id = id)

/-- UserRepository::update_device_credentials (user.rs lines 88-99):
an UNCONDITIONAL `UPDATE users SET encrypted_device_creds = $1,
updated_at = $2 WHERE id = $3` — there is no guard on the current value
of the credentials column. -/
def UserRepository.update_device_credentials (db : List User) (now user_id : Nat)
    (encrypted_creds : List Nat) : List User :=
  db.map (fun u =>
    if u.id = user_id then
      { u with encrypted_device_creds := some encrypted_creds, updated_at := now }
    else u)

/-- UserRepository::public_key_exists (user.rs lines 101-110). -/
def UserRepository.public_key_exists (db : List User) (public_key : List Nat) :
    Bool :=
  db.any (fun u => u.public_key = public_key)

/-- GreenlightService::register_node (src/services/greenlight.rs):
every internal failure is surfaced as AppError::Greenlight. -/
def GreenlightService.register_node (C : Collab) (seed : List Nat) :
    Except AppError (List Nat) :=
  match C.glRegister seed with
  | .error m => .error (.Greenlight m)
  | .ok creds => .ok creds

/-- JwtService::generate_token (src/services/jwt.rs lines 31-44):
failure is surfaced as AppError::Authentication. -/
def JwtService.generate_token (C : Collab) (user_id : Nat) :
    Except AppError (List Nat) :=
  match C.jwtSign user_id with
  | none => .error (.Authentication "Failed to generate token")
  | some token => .ok token

/-- Trace of collaborator calls a handler performs, in order. -/
inductive Event where
  | publicKeyExistsCall
  | generateMnemonicCall
  | encryptCall
  | hashPasswordCall
  | createUserCall
  | findByPublicKeyCall
  | verifyPasswordCall
  | generateTokenCall
  | findByIdCall
  | decryptCall
  | validateMnemonicCall
  | mnemonicToSeedCall
  | glRegisterCall
  | updateCredsCall
deriving DecidableEq, Repr

/-- The signup handler (src/handlers/auth.rs lines 24-70).  Returns the
handler result (the SignupResponse is modelled as the pair
encrypted_seed, token), the resulting store, and the call trace.
The fresh salt and nonce drawn inside CryptoService::encrypt, the fresh
Uuid and the clock are passed explicitly. -/
def signup (C : Collab) (db : List User) (salt nonce : List Nat)
    (new_id now : Nat) (request : CreateUserRequest) :
    Except AppError (List Nat × List Nat) × List User × List Event :=
  let t0 := [Event.publicKeyExistsCall]
  if UserRepository.public_key_exists db request.public_key then
    (.error (.BadRequest "User with this public key already exists"), db, t0)
  else if request.public_key = [] ∨ request.password.length < 8 then
    (.error (.Validation "Public key cannot be empty and password must be at least 8 characters"), db, t0)
  else
    let t1 := t0 ++ [Event.generateMnemonicCall]
    match CryptoService.generate_mnemonic C with
    | .error e => (.error e, db, t1)
    | .ok mnemonic =>
      let t2 := t1 ++ [Event.encryptCall]
      match CryptoService.encrypt C salt nonce mnemonic request.password with
      | .error e => (.error e, db, t2)
      | .ok encrypted_seed =>
        let t3 := t2 ++ [Event.hashPasswordCall]
        match CryptoService.hash_password C request.password with
        | .error e => (.error e, db, t3)
        | .ok password_hash =>
          let t4 := t3 ++ [Event.createUserCall]
          let p := UserRepository.create_user db new_id now
                     request.public_key password_hash encrypted_seed
          let t5 := t4 ++ [Event.generateTokenCall]
          match JwtService.generate_token C p.1.id with
          | .error e => (.error e, p.2, t5)
          | .ok token => (.ok (encrypted_seed, token), p.2, t5)

/-- The login handler (src/handlers/auth.rs lines 73-92).  Returns the
token on success and the call trace.  The store is read-only here. -/
def login (C : Collab) (db : List User) (request : LoginRequest) :
    Except AppError (List Nat) × List Event :=
  let t0 := [Event.findByPublicKeyCall]
  match UserRepository.find_by_public_key db request.public_key with
  | none => (.error (.Authentication "Invalid credentials"), t0)
  | some user =>
    let t1 := t0 ++ [Event.verifyPasswordCall]
    match CryptoService.verify_password C request.password user.password_hash with
    | .error e => (.error e, t1)
    | .ok verified =>
      if verified = false then
        (.error (.Authentication "Invalid credentials"), t1)
      else
        let t2 := t1 ++ [Event.generateTokenCall]
        match JwtService.generate_token C user.id with
        | .error e => (.error e, t2)
        | .ok token => (.ok token, t2)

/-- The read-and-compute phase of the register_node handler
(src/handlers/node.rs lines 39-73): everything from the find_by_id
lookup up to base64-encoding the device credentials, before the
update_device_credentials write.  Returns the creds_base64 value to be
persisted, or the error, together with the call trace. -/
def register_node_core (C : Collab) (db : List User) (user_id : Nat)
    (request : NodeRegisterRequest) :
    Except AppError (List Nat) × List Event :=
  let t0 := [Event.findByIdCall]
  match UserRepository.find_by_id db user_id with
  | none => (.error (.NotFound "User not found"), t0)
  | some user =>
    match user.encrypted_device_creds with
    | some _ => (.error (.BadRequest "Node already registered for this user"), t0)
    | none =>
      let t1 := t0 ++ [Event.decryptCall]
      match CryptoService.decrypt C request.encrypted_seed request.password with
      | .error e => (.error e, t1)
      | .ok mnemonic =>
        let t2 := t1 ++ [Event.validateMnemonicCall]
        match CryptoService.validate_mnemonic C mnemonic with
        | .error e => (.error e, t2)
        | .ok valid =>
          if valid = false then
            (.error (.Validation "Invalid mnemonic"), t2)
          else
            let t3 := t2 ++ [Event.mnemonicToSeedCall]
            match CryptoService.mnemonic_to_seed C mnemonic with
            | .error e => (.error e, t3)
            | .ok seed =>
              let t4 := t3 ++ [Event.glRegisterCall]
              match GreenlightService.register_node C seed with
              | .error e => (.error e, t4)
              | .ok device_creds => (.ok (C.b64Encode device_creds), t4)

/-- The register_node handler (src/handlers/node.rs lines 39-81):
the core phase followed, on success, by the
update_device_credentials write and the response. -/
def register_node (C : Collab) (db : List User) (now user_id : Nat)
    (request : NodeRegisterRequest) :
    Except AppError (List Nat) × List User × List Event :=
  match register_node_core C db user_id request with
  | (.error e, t) => (.error e, db, t)
  | (.ok creds_base64, t) =>
      (.ok creds_base64,
       UserRepository.update_device_credentials db now user_id creds_base64,
       t ++ [Event.updateCredsCall])

/-- Two register_node calls for the same account, interleaved so that
both run their read-and-compute phase against the initial store before
either one persists.  This schedule is possible in the source because
the absence check and the update are separate awaited statements with no
surrounding transaction.  Returns both handler results and the final
store (call 1 persists first, then call 2). -/
def register_node_concurrent (C : Collab) (db : List User)
    (now1 now2 user_id : Nat) (r1 r2 : NodeRegisterRequest) :
    Except AppError (List Nat) × Except AppError (List Nat) × List User :=
  let a := register_node_core C db user_id r1
  let b := register_node_core C db user_id r2
  let db1 := match a.1 with
    | .ok c => UserRepository.update_device_credentials db now1 user_id c
    | .error _ => db
  let db2 := match b.1 with
    | .ok c => UserRepository.update_device_credentials db1 now2 user_id c
    | .error _ => db1
  (a.1, b.1, db2)

/-- A concrete instantiation of the external collaborators, used to
evaluate the handler compositions on closed inputs.  It satisfies the
interface contracts the theorems assume (base64 decode inverts encode,
AEAD decryption inverts encryption) with simple executable stand-ins. -/
def toyCollab : Collab where
  deriveKey := fun password salt => password ++ salt
  aeadEnc := fun k n m => (k.length + n.length) % 256 :: m
  aeadDec := fun k n c =>
    match c with
    | [] => none
    | t :: m => if t = (k.length + n.length) % 256 then some m else none
  b64Encode := fun bs => 0 :: bs
  b64Decode := fun s => match s with | [] => none | _ :: bs => some bs
  parseHash := fun h => match h with | [] => none | _ :: _ => some h
  argonVerify := fun pw ph => pw == ph
  argonHash := fun pw => some (0 :: pw)
  entropy := List.replicate 32 7
  mnemonicFromEntropy := fun e => some e
  parseMnemonic := fun m => match m with | [] => none | _ :: _ => some m
  mnemonicSeed := fun m => m ++ m
  glRegister := fun seed => .ok (1 :: seed)
  jwtSign := fun uid => some [uid]

/-- The toy base64 stand-in satisfies the decode-encode contract of the
base64 crate. -/
theorem toyCollab_b64_roundtrip :
    ∀ bs, toyCollab.b64Decode (toyCollab.b64Encode bs) = some bs := by
  intro bs; rfl

/-- The toy AEAD stand-in satisfies the decrypt-encrypt contract of the
aes_gcm crate. -/
theorem toyCollab_aead_roundtrip :
    ∀ k n m, toyCollab.aeadDec k n (toyCollab.aeadEnc k n m) = some m := by
  intro k n m; simp [toyCollab]

/-- Claim C1: For every password P and every plaintext M, and for any
choice of the random salt and nonce drawn during encryption, decrypting
the blob produced by CryptoService::encrypt(M, P) with the same password
P succeeds and returns M.  The hypotheses state the contracts of the
base64 and aes_gcm crates, that the plaintext is a UTF-8 string (it is a
Rust `&str` at the call site), and the sizes of the random draws fixed
by the source. -/
theorem secretcipher_roundtrip (C : Collab)
    (hb64 : ∀ bs, C.b64Decode (C.b64Encode bs) = some bs)
    (haead : ∀ k n m, C.aeadDec k n (C.aeadEnc k n m) = some m)
    (salt nonce data password : List Nat)
    (hs : salt.length = SALT_SIZE) (hn : nonce.length = NONCE_SIZE)
    (hutf : isValidUtf8 data = true) (blob : List Nat)
    (henc : CryptoService.encrypt C salt nonce data password = .ok blob) :
    CryptoService.decrypt C blob password = .ok data := by
  have hblob : C.b64Encode (salt ++ (nonce ++ C.aeadEnc (C.deriveKey password salt) nonce data)) = blob := by
    simpa [CryptoService.encrypt] using henc
  subst hblob
  have hlen : ¬ ((salt ++ (nonce ++ C.aeadEnc (C.deriveKey password salt) nonce data)).length
      < SALT_SIZE + NONCE_SIZE) := by
    simp only [List.length_append, hs, hn]
    omega
  have h44 : (salt ++ nonce).length = SALT_SIZE + NONCE_SIZE := by
    simp [List.length_append, hs, hn]
  simp only [CryptoService.decrypt, hb64, hlen, if_false]
  rw [List.take_left' hs, List.drop_left' hs, List.take_left' hn,
    ← List.append_assoc, List.drop_left' h44, haead]
  simp [hutf]

/-- Witness for C1 at a concrete input: the toy collaborators, a 32-byte
zero salt, a 12-byte zero nonce, plaintext "a" and password "p". -/
theorem secretcipher_roundtrip_witness :
    CryptoService.decrypt toyCollab
      (0 :: (List.replicate 32 0 ++ (List.replicate 12 0 ++ [45, 97]))) [112] = .ok [97] :=
  secretcipher_roundtrip toyCollab toyCollab_b64_roundtrip toyCollab_aead_roundtrip
    (List.replicate 32 0) (List.replicate 12 0) [97] [112]
    (by decide) (by decide) (by decide)
    (0 :: (List.replicate 32 0 ++ (List.replicate 12 0 ++ [45, 97]))) (by decide)

/-- Claim C2: CryptoService::decrypt fails with the Cryptography error
kind (and with no other kind) when the input is not valid base64, when
the decoded bytes are shorter than SALT_SIZE + NONCE_SIZE = 44, or when
AEAD authentication fails; and a decoded blob shorter than 44 bytes is
rejected independently of the AEAD decryption collaborator, i.e. before
any decryption is attempted. -/
theorem decrypt_error_kinds (C : Collab) (blob password : List Nat) :
    (C.b64Decode blob = none →
      CryptoService.decrypt C blob password = .error (.Cryptography "Invalid base64"))
  ∧ (∀ d, C.b64Decode blob = some d → d.length < SALT_SIZE + NONCE_SIZE →
      ∀ g, CryptoService.decrypt { C with aeadDec := g } blob password
        = .error (.Cryptography "Invalid encrypted data length"))
  ∧ (∀ d, C.b64Decode blob = some d → ¬ d.length < SALT_SIZE + NONCE_SIZE →
      C.aeadDec (C.deriveKey password (d.take SALT_SIZE))
        ((d.drop SALT_SIZE).take NONCE_SIZE) (d.drop (SALT_SIZE + NONCE_SIZE)) = none →
      CryptoService.decrypt C blob password = .error (.Cryptography "Decryption failed"))
  ∧ (∀ e, CryptoService.decrypt C blob password = .error e →
      ∃ m, e = AppError.Cryptography m) := by
  refine ⟨?_, ?_, ?_, ?_⟩
  · intro h
    simp [CryptoService.decrypt, h]
  · intro d hd hlen g
    simp [CryptoService.decrypt, hd, hlen]
  · intro d hd hlen hdec
    simp [CryptoService.decrypt, hd, hlen, hdec]
  · intro e he
    cases hb : C.b64Decode blob with
    | none =>
      simp only [CryptoService.decrypt, hb] at he
      exact ⟨"Invalid base64", by simpa using he.symm⟩
    | some d =>
      simp only [CryptoService.decrypt, hb] at he
      by_cases hlen : d.length < SALT_SIZE + NONCE_SIZE
      · rw [if_pos hlen] at he
        exact ⟨"Invalid encrypted data length", by simpa using he.symm⟩
      · rw [if_neg hlen] at he
        cases hdec : C.aeadDec (C.deriveKey password (d.take SALT_SIZE))
            ((d.drop SALT_SIZE).take NONCE_SIZE) (d.drop (SALT_SIZE + NONCE_SIZE)) with
        | none =>
          rw [hdec] at he
          exact ⟨"Decryption failed", by simpa using he.symm⟩
        | some pt =>
          simp only [hdec] at he
          by_cases hv : isValidUtf8 pt
          · rw [if_pos hv] at he
            simp at he
          · rw [if_neg hv] at he
            exact ⟨"Invalid UTF-8", by simpa using he.symm⟩

/-- Witness for C2 at concrete inputs: the empty input is invalid toy
base64; a decoded blob of 43 zero bytes is shorter than 44 and is
rejected by the length check for every AEAD collaborator; a correctly
framed blob with a wrong tag fails authentication. -/
theorem decrypt_error_kinds_witness :
    CryptoService.decrypt toyCollab [] [1] = .error (.Cryptography "Invalid base64")
  ∧ CryptoService.decrypt toyCollab (0 :: List.replicate 43 0) [1]
      = .error (.Cryptography "Invalid encrypted data length")
  ∧ CryptoService.decrypt toyCollab
      (0 :: (List.replicate 32 0 ++ (List.replicate 12 0 ++ [99, 97]))) [112]
      = .error (.Cryptography "Decryption failed") :=
  ⟨(decrypt_error_kinds toyCollab [] [1]).1 rfl,
   by
    have h := (decrypt_error_kinds toyCollab (0 :: List.replicate 43 0) [1]).2.1
      (List.replicate 43 0) (by decide) (by decide) toyCollab.aeadDec
    simpa using h,
   (decrypt_error_kinds toyCollab
      (0 :: (List.replicate 32 0 ++ (List.replicate 12 0 ++ [99, 97]))) [112]).2.2.1
      (List.replicate 32 0 ++ (List.replicate 12 0 ++ [99, 97]))
      (by decide) (by decide) (by decide)⟩

/-- Claim C10: CryptoService::decrypt succeeds only on valid UTF-8
plaintexts: when base64 decoding, the length check and AEAD
authentication all succeed but the recovered bytes are not valid UTF-8,
it fails with a Cryptography error; and every successful result is a
valid UTF-8 byte string. -/
theorem decrypt_utf8_strings (C : Collab) (blob password : List Nat) :
    (∀ d pt, C.b64Decode blob = some d → ¬ d.length < SALT_SIZE + NONCE_SIZE →
      C.aeadDec (C.deriveKey password (d.take SALT_SIZE))
        ((d.drop SALT_SIZE).take NONCE_SIZE) (d.drop (SALT_SIZE + NONCE_SIZE)) = some pt →
      isValidUtf8 pt = false →
      CryptoService.decrypt C blob password = .error (.Cryptography "Invalid UTF-8"))
  ∧ (∀ s, CryptoService.decrypt C blob password = .ok s → isValidUtf8 s = true) := by
  constructor
  · intro d pt hd hlen hdec hv
    simp [CryptoService.decrypt, hd, hlen, hdec, hv]
  · intro s hs
    cases hb : C.b64Decode blob with
    | none => simp only [CryptoService.decrypt, hb] at hs; simp at hs
    | some d =>
      simp only [CryptoService.decrypt, hb] at hs
      by_cases hlen : d.length < SALT_SIZE + NONCE_SIZE
      · rw [if_pos hlen] at hs; simp at hs
      · rw [if_neg hlen] at hs
        cases hdec : C.aeadDec (C.deriveKey password (d.take SALT_SIZE))
            ((d.drop SALT_SIZE).take NONCE_SIZE) (d.drop (SALT_SIZE + NONCE_SIZE)) with
        | none => rw [hdec] at hs; simp at hs
        | some pt =>
          simp only [hdec] at hs
          by_cases hv : isValidUtf8 pt
          · rw [if_pos hv] at hs
            obtain rfl : pt = s := by simpa using hs
            exact hv
          · rw [if_neg hv] at hs; simp at hs

/-- Witness for C10 at a concrete input: a correctly authenticated toy
blob whose plaintext is the single byte 0xFF, which is not UTF-8. -/
theorem decrypt_utf8_strings_witness :
    CryptoService.decrypt toyCollab
      (0 :: (List.replicate 32 0 ++ (List.replicate 12 0 ++ [45, 255]))) [112]
      = .error (.Cryptography "Invalid UTF-8") :=
  (decrypt_utf8_strings toyCollab
      (0 :: (List.replicate 32 0 ++ (List.replicate 12 0 ++ [45, 255]))) [112]).1
    (List.replicate 32 0 ++ (List.replicate 12 0 ++ [45, 255])) [255]
    (by decide) (by decide) (by decide) (by decide)

/-- Claim C9: CryptoService::verify_password fails with a Cryptography
error when the stored hash string cannot be parsed, and returns the
boolean verification outcome (in particular Ok(false), not an error, on a
legitimate mismatch) when it parses; a malformed hash never produces an
Ok result, so the two failure classes are never conflated. -/
theorem verify_password_failure_classes (C : Collab) (password hash : List Nat) :
    (C.parseHash hash = none →
      CryptoService.verify_password C password hash
        = .error (.Cryptography "Invalid hash format"))
  ∧ (∀ ph, C.parseHash hash = some ph →
      CryptoService.verify_password C password hash = .ok (C.argonVerify password ph))
  ∧ (C.parseHash hash = none →
      ∀ b, CryptoService.verify_password C password hash ≠ .ok b) := by
  refine ⟨?_, ?_, ?_⟩
  · intro h
    simp [CryptoService.verify_password, h]
  · intro ph h
    simp [CryptoService.verify_password, h]
  · intro h b
    simp [CryptoService.verify_password, h]

/-- Witness for C9 at concrete inputs: the toy argon2 parser rejects the
empty hash string (Cryptography error) and parses the hash [2], against
which the password [1] legitimately mismatches (Ok false). -/
theorem verify_password_failure_classes_witness :
    CryptoService.verify_password toyCollab [1] []
      = .error (.Cryptography "Invalid hash format")
  ∧ CryptoService.verify_password toyCollab [1] [2] = .ok false :=
  ⟨(verify_password_failure_classes toyCollab [1] []).1 rfl,
   (verify_password_failure_classes toyCollab [1] [2]).2.1 [2] rfl⟩

/-- Claim C8: for a login whose identity key is absent and for a login
whose identity key exists but whose password does not verify, the handler
fails with literally the same Authentication error, identical in kind and
message (in particular never NotFound), so the response does not reveal
whether the account exists. -/
theorem login_uniform_auth_error (C : Collab) (db : List User) (request : LoginRequest) :
    (UserRepository.find_by_public_key db request.public_key = none →
      (login C db request).1 = .error (.Authentication "Invalid credentials"))
  ∧ (∀ user, UserRepository.find_by_public_key db request.public_key = some user →
      CryptoService.verify_password C request.password user.password_hash = .ok false →
      (login C db request).1 = .error (.Authentication "Invalid credentials")) := by
  constructor
  · intro h
    simp [login, h]
  · intro user hfind hverify
    simp [login, hfind, hverify]

/-- Witness for C8 at concrete inputs: against a store holding one user
with public key [1] and hash [9], login with the missing key [2] and
login with key [1] but the wrong password [5] produce the identical
Authentication error. -/
theorem login_uniform_auth_error_witness :
    (login toyCollab
      [{ id := 1, public_key := [1], password_hash := [9],
         encrypted_seed := some [3], encrypted_device_creds := none,
         created_at := 0, updated_at := 0 }]
      { public_key := [2], password := [5] }).1
        = .error (.Authentication "Invalid credentials")
  ∧ (login toyCollab
      [{ id := 1, public_key := [1], password_hash := [9],
         encrypted_seed := some [3], encrypted_device_creds := none,
         created_at := 0, updated_at := 0 }]
      { public_key := [1], password := [5] }).1
        = .error (.Authentication "Invalid credentials") :=
  ⟨(login_uniform_auth_error toyCollab
      [{ id := 1, public_key := [1], password_hash := [9],
         encrypted_seed := some [3], encrypted_device_creds := none,
         created_at := 0, updated_at := 0 }]
      { public_key := [2], password := [5] }).1 (by decide),
   (login_uniform_auth_error toyCollab
      [{ id := 1, public_key := [1], password_hash := [9],
         encrypted_seed := some [3], encrypted_device_creds := none,
         created_at := 0, updated_at := 0 }]
      { public_key := [1], password := [5] }).2
      { id := 1, public_key := [1], password_hash := [9],
        encrypted_seed := some [3], encrypted_device_creds := none,
        created_at := 0, updated_at := 0 }
      (by decide) (by decide)⟩

/-- If signup rejects on the uniqueness precondition, the result is the
duplicate-key error, the store is untouched and only the existence query
ran.  (The source has no dedicated Conflict variant; the duplicate-key
failure is AppError::BadRequest.) -/
theorem signup_exists_eq (C : Collab) (db : List User) (salt nonce : List Nat)
    (new_id now : Nat) (request : CreateUserRequest)
    (h : UserRepository.public_key_exists db request.public_key = true) :
    signup C db salt nonce new_id now request
      = (.error (.BadRequest "User with this public key already exists"),
         db, [Event.publicKeyExistsCall]) := by
  simp [signup, h]

/-- If signup rejects on input validation (empty key or password shorter
than 8 bytes) with the key not already taken, the result is the
Validation error, the store is untouched and only the existence query
ran. -/
theorem signup_malformed_eq (C : Collab) (db : List User) (salt nonce : List Nat)
    (new_id now : Nat) (request : CreateUserRequest)
    (h1 : UserRepository.public_key_exists db request.public_key = false)
    (h2 : request.public_key = [] ∨ request.password.length < 8) :
    signup C db salt nonce new_id now request
      = (.error (.Validation "Public key cannot be empty and password must be at least 8 characters"),
         db, [Event.publicKeyExistsCall]) := by
  simp only [signup, h1, Bool.false_eq_true, if_false]
  rw [if_pos h2]

/-- Claim C6: signup fails with the duplicate-key error (the realization
of the spec Conflict, AppError::BadRequest in the source) when the
identity key already exists, and with Validation when the identity key is
empty or the password is shorter than 8 bytes; both checks precede all
cryptographic work and all side effects, so on either failure no mnemonic
generation, encryption, password hashing or persistence occurs. -/
theorem signup_precondition_checks (C : Collab) (db : List User)
    (salt nonce : List Nat) (new_id now : Nat) (request : CreateUserRequest) :
    (UserRepository.public_key_exists db request.public_key = true →
      signup C db salt nonce new_id now request
        = (.error (.BadRequest "User with this public key already exists"),
           db, [Event.publicKeyExistsCall]))
  ∧ (UserRepository.public_key_exists db request.public_key = false →
      (request.public_key = [] ∨ request.password.length < 8) →
      signup C db salt nonce new_id now request
        = (.error (.Validation "Public key cannot be empty and password must be at least 8 characters"),
           db, [Event.publicKeyExistsCall]))
  ∧ ((UserRepository.public_key_exists db request.public_key = true
        ∨ (request.public_key = [] ∨ request.password.length < 8)) →
      (signup C db salt nonce new_id now request).2.1 = db
      ∧ Event.generateMnemonicCall ∉ (signup C db salt nonce new_id now request).2.2
      ∧ Event.encryptCall ∉ (signup C db salt nonce new_id now request).2.2
      ∧ Event.hashPasswordCall ∉ (signup C db salt nonce new_id now request).2.2
      ∧ Event.createUserCall ∉ (signup C db salt nonce new_id now request).2.2) := by
  refine ⟨signup_exists_eq C db salt nonce new_id now request,
          signup_malformed_eq C db salt nonce new_id now request, ?_⟩
  intro hcase
  by_cases hex : UserRepository.public_key_exists db request.public_key = true
  · rw [signup_exists_eq C db salt nonce new_id now request hex]
    refine ⟨rfl, by simp, by simp, by simp, by simp⟩
  · have hex' : UserRepository.public_key_exists db request.public_key = false := by
      simpa using hex
    have hmal : request.public_key = [] ∨ request.password.length < 8 := by
      rcases hcase with hc | hc
      · exact absurd hc hex
      · exact hc
    rw [signup_malformed_eq C db salt nonce new_id now request hex' hmal]
    refine ⟨rfl, by simp, by simp, by simp, by simp⟩

/-- Witness for C6 at concrete inputs: a taken key [1] is rejected as a
duplicate; a fresh key with the 3-byte password [1, 2, 3] is rejected by
validation; neither run leaves the single-user store or performs
cryptographic work. -/
theorem signup_precondition_checks_witness :
    signup toyCollab
      [{ id := 1, public_key := [1], password_hash := [9],
         encrypted_seed := some [3], encrypted_device_creds := none,
         created_at := 0, updated_at := 0 }]
      (List.replicate 32 0) (List.replicate 12 0) 2 0
      { public_key := [1], password := [1, 2, 3, 4, 5, 6, 7, 8] }
      = (.error (.BadRequest "User with this public key already exists"),
         [{ id := 1, public_key := [1], password_hash := [9],
            encrypted_seed := some [3], encrypted_device_creds := none,
            created_at := 0, updated_at := 0 }], [Event.publicKeyExistsCall])
  ∧ signup toyCollab
      [{ id := 1, public_key := [1], password_hash := [9],
         encrypted_seed := some [3], encrypted_device_creds := none,
         created_at := 0, updated_at := 0 }]
      (List.replicate 32 0) (List.replicate 12 0) 2 0
      { public_key := [2], password := [1, 2, 3] }
      = (.error (.Validation "Public key cannot be empty and password must be at least 8 characters"),
         [{ id := 1, public_key := [1], password_hash := [9],
            encrypted_seed := some [3], encrypted_device_creds := none,
            created_at := 0, updated_at := 0 }], [Event.publicKeyExistsCall]) :=
  ⟨(signup_precondition_checks toyCollab
      [{ id := 1, public_key := [1], password_hash := [9],
         encrypted_seed := some [3], encrypted_device_creds := none,
         created_at := 0, updated_at := 0 }]
      (List.replicate 32 0) (List.replicate 12 0) 2 0
      { public_key := [1], password := [1, 2, 3, 4, 5, 6, 7, 8] }).1 (by decide),
   (signup_precondition_checks toyCollab
      [{ id := 1, public_key := [1], password_hash := [9],
         encrypted_seed := some [3], encrypted_device_creds := none,
         created_at := 0, updated_at := 0 }]
      (List.replicate 32 0) (List.replicate 12 0) 2 0
      { public_key := [2], password := [1, 2, 3] }).2.1 (by decide) (by decide)⟩

/-- Counterexample to claim C7 as stated: the source checks the UTF-8
BYTE length of the password (Rust String::len), not the character count.
The Greek password "αβγδεζη" has 7 characters but 14 bytes, so a signup
request carrying it is not rejected: with collaborators that succeed it
completes with an Ok result instead of the Validation error the claim
requires for every password shorter than 8 characters. -/
theorem signup_password_charcount_counterexample :
    utf8CharCount [206, 177, 206, 178, 206, 179, 206, 180, 206, 181, 206, 182, 206, 183] = 7
  ∧ (signup toyCollab [] (List.replicate 32 0) (List.replicate 12 0) 1 0
      { public_key := [112],
        password := [206, 177, 206, 178, 206, 179, 206, 180, 206, 181, 206, 182, 206, 183] }).1.isOk
      = true := by
  decide

/-- Claim C7 amended: signup rejects with a Validation error every
request (whose identity key is not already taken) whose password is
shorter than 8 UTF-8 BYTES, and, as far as password length is concerned,
accepts every request whose password is at least 8 bytes long: such a
request is never rejected with a Validation error. -/
theorem signup_password_byte_length (C : Collab) (db : List User)
    (salt nonce : List Nat) (new_id now : Nat) (request : CreateUserRequest) :
    (UserRepository.public_key_exists db request.public_key = false →
      request.password.length < 8 →
      (signup C db salt nonce new_id now request).1
        = .error (.Validation "Public key cannot be empty and password must be at least 8 characters"))
  ∧ (request.public_key ≠ [] → 8 ≤ request.password.length →
      ∀ m, (signup C db salt nonce new_id now request).1 ≠ .error (.Validation m)) := by
  constructor
  · intro h1 h2
    rw [signup_malformed_eq C db salt nonce new_id now request h1 (Or.inr h2)]
  · intro hpk hlen m
    by_cases hex : UserRepository.public_key_exists db request.public_key = true
    · rw [signup_exists_eq C db salt nonce new_id now request hex]
      simp
    · have hex' : UserRepository.public_key_exists db request.public_key = false := by
        simpa using hex
      have hcond : ¬ (request.public_key = [] ∨ request.password.length < 8) := by
        push_neg
        exact ⟨hpk, by omega⟩
      simp only [signup, hex', Bool.false_eq_true, if_false]
      rw [if_neg hcond]
      simp only [CryptoService.generate_mnemonic, CryptoService.encrypt,
        CryptoService.hash_password, JwtService.generate_token,
        UserRepository.create_user]
      cases hm : C.mnemonicFromEntropy C.entropy with
      | none => simp
      | some mnemonic =>
        simp only
        cases hh : C.argonHash request.password with
        | none => simp
        | some password_hash =>
          simp only
          cases hj : C.jwtSign new_id with
          | none => simp
          | some token => simp

/-- Witness for the amended C7 at concrete inputs: against the empty
store, the 3-byte password [1, 2, 3] is rejected with the Validation
error. -/
theorem signup_password_byte_length_witness :
    (signup toyCollab [] (List.replicate 32 0) (List.replicate 12 0) 1 0
      { public_key := [112], password := [1, 2, 3] }).1
      = .error (.Validation "Public key cannot be empty and password must be at least 8 characters") :=
  (signup_password_byte_length toyCollab [] (List.replicate 32 0) (List.replicate 12 0) 1 0
      { public_key := [112], password := [1, 2, 3] }).1 (by decide) (by decide)

/-- The read-and-compute phase of register_node never performs the
persistence write: its trace never contains the update event. -/
theorem register_node_core_no_update (C : Collab) (db : List User)
    (user_id : Nat) (request : NodeRegisterRequest) :
    Event.updateCredsCall ∉ (register_node_core C db user_id request).2 := by
  unfold register_node_core
  repeat' split
  all_goals simp

/-- Claim C3: when the account already holds device credentials,
register_node fails with the already-registered error (the realization of
the spec Conflict, AppError::BadRequest in the source), leaves the store
untouched, and performs no decryption, no mnemonic validation and no
provisioning call: its trace is the lookup alone. -/
theorem register_node_already_registered (C : Collab) (db : List User)
    (now user_id : Nat) (request : NodeRegisterRequest) (user : User) (creds : List Nat)
    (hfind : UserRepository.find_by_id db user_id = some user)
    (hcreds : user.encrypted_device_creds = some creds) :
    register_node C db now user_id request
      = (.error (.BadRequest "Node already registered for this user"),
         db, [Event.findByIdCall])
    ∧ Event.decryptCall ∉ (register_node C db now user_id request).2.2
    ∧ Event.validateMnemonicCall ∉ (register_node C db now user_id request).2.2
    ∧ Event.glRegisterCall ∉ (register_node C db now user_id request).2.2
    ∧ Event.updateCredsCall ∉ (register_node C db now user_id request).2.2 := by
  have hcore : register_node_core C db user_id request
      = (.error (.BadRequest "Node already registered for this user"),
         [Event.findByIdCall]) := by
    simp [register_node_core, hfind, hcreds]
  have hmain : register_node C db now user_id request
      = (.error (.BadRequest "Node already registered for this user"),
         db, [Event.findByIdCall]) := by
    simp [register_node, hcore]
  refine ⟨hmain, ?_, ?_, ?_, ?_⟩ <;> rw [hmain] <;> simp

/-- Witness for C3 at a concrete input: a store whose only user (id 1)
already has device credentials [4]. -/
theorem register_node_already_registered_witness :
    register_node toyCollab
      [{ id := 1, public_key := [1], password_hash := [9],
         encrypted_seed := some [3], encrypted_device_creds := some [4],
         created_at := 0, updated_at := 0 }]
      9 1 { encrypted_seed := [5], password := [6] }
      = (.error (.BadRequest "Node already registered for this user"),
         [{ id := 1, public_key := [1], password_hash := [9],
            encrypted_seed := some [3], encrypted_device_creds := some [4],
            created_at := 0, updated_at := 0 }], [Event.findByIdCall]) :=
  (register_node_already_registered toyCollab
      [{ id := 1, public_key := [1], password_hash := [9],
         encrypted_seed := some [3], encrypted_device_creds := some [4],
         created_at := 0, updated_at := 0 }]
      9 1 { encrypted_seed := [5], password := [6] }
      { id := 1, public_key := [1], password_hash := [9],
        encrypted_seed := some [3], encrypted_device_creds := some [4],
        created_at := 0, updated_at := 0 } [4] (by decide) rfl).1

/-- Claim C5: whenever register_node fails, for any reason, nothing is
persisted: the store it returns is its input store and no update call
appears in its trace. -/
theorem register_node_failure_no_persist (C : Collab) (db : List User)
    (now user_id : Nat) (request : NodeRegisterRequest) (e : AppError)
    (h : (register_node C db now user_id request).1 = .error e) :
    (register_node C db now user_id request).2.1 = db
    ∧ Event.updateCredsCall ∉ (register_node C db now user_id request).2.2 := by
  have hnu := register_node_core_no_update C db user_id request
  cases hcore : register_node_core C db user_id request with
  | mk res t =>
    cases res with
    | error e2 =>
      rw [hcore] at hnu
      constructor
      · simp [register_node, hcore]
      · simp only [register_node, hcore]
        simpa using hnu
    | ok c =>
      simp only [register_node, hcore] at h
      simp at h

/-- Witness for C5 at a concrete input: against the empty store the
lookup fails with NotFound, and indeed nothing is persisted. -/
theorem register_node_failure_no_persist_witness :
    (register_node toyCollab [] 9 1 { encrypted_seed := [5], password := [6] }).2.1 = []
    ∧ Event.updateCredsCall
        ∉ (register_node toyCollab [] 9 1 { encrypted_seed := [5], password := [6] }).2.2 :=
  register_node_failure_no_persist toyCollab [] 9 1
    { encrypted_seed := [5], password := [6] } (.NotFound "User not found") (by decide)

/-- A fresh account (no device credentials yet) used for the
register_node race scenario. -/
def raceUser : User :=
  { id := 1, public_key := [1], password_hash := [9],
    encrypted_seed := some [3], encrypted_device_creds := none,
    created_at := 0, updated_at := 0 }

/-- A register_node request whose encrypted seed decrypts, under the toy
collaborators and password "p", to the valid one-byte mnemonic "a". -/
def raceRequest : NodeRegisterRequest :=
  { encrypted_seed := 0 :: (List.replicate 32 0 ++ (List.replicate 12 0 ++ [45, 97])),
    password := [112] }

/-- Counterexample to claim C4 as stated: the absence check and the
persistence are a read-then-write pair, and the write
(UserRepository::update_device_credentials) is an unconditional UPDATE.
In the interleaving where two register_node calls for the same fresh
account both pass the check before either persists, BOTH succeed —
not exactly one success and one Conflict — and the update succeeds even
when the credentials column is already populated, overwriting it. -/
theorem register_node_race_counterexample :
    (register_node_concurrent toyCollab [raceUser] 5 6 1 raceRequest raceRequest).1.isOk
      = true
  ∧ (register_node_concurrent toyCollab [raceUser] 5 6 1 raceRequest raceRequest).2.1.isOk
      = true
  ∧ UserRepository.update_device_credentials
      [{ raceUser with encrypted_device_creds := some [4] }] 7 1 [9]
      = [{ raceUser with encrypted_device_creds := some [9], updated_at := 7 }] := by
  decide

/-- Claim C4 amended: the absence check and the persistence of the new
credential are a separate read and an unconditional write, not a single
conditional write; consequently, when two register_node calls for the
same fresh account run concurrently with both supplying decryptable
valid seeds, the interleaving in which both pass the absence check
before either persists makes BOTH calls succeed, the second persisted
credential overwriting the first, instead of exactly one Conflict. -/
theorem register_node_race_both_succeed (C : Collab) (db : List User)
    (now1 now2 user_id : Nat) (r1 r2 : NodeRegisterRequest) (user : User)
    (m1 p1 c1 m2 p2 c2 : List Nat)
    (hfind : UserRepository.find_by_id db user_id = some user)
    (hnone : user.encrypted_device_creds = none)
    (hd1 : CryptoService.decrypt C r1.encrypted_seed r1.password = .ok m1)
    (hp1 : C.parseMnemonic m1 = some p1)
    (hg1 : C.glRegister (C.mnemonicSeed p1) = .ok c1)
    (hd2 : CryptoService.decrypt C r2.encrypted_seed r2.password = .ok m2)
    (hp2 : C.parseMnemonic m2 = some p2)
    (hg2 : C.glRegister (C.mnemonicSeed p2) = .ok c2) :
    register_node_concurrent C db now1 now2 user_id r1 r2
      = (.ok (C.b64Encode c1), .ok (C.b64Encode c2),
         UserRepository.update_device_credentials
           (UserRepository.update_device_credentials db now1 user_id (C.b64Encode c1))
           now2 user_id (C.b64Encode c2)) := by
  have hcore1 : register_node_core C db user_id r1
      = (.ok (C.b64Encode c1),
         [Event.findByIdCall, Event.decryptCall, Event.validateMnemonicCall,
          Event.mnemonicToSeedCall, Event.glRegisterCall]) := by
    simp [register_node_core, hfind, hnone, hd1, CryptoService.validate_mnemonic, hp1,
      CryptoService.mnemonic_to_seed, GreenlightService.register_node, hg1]
  have hcore2 : register_node_core C db user_id r2
      = (.ok (C.b64Encode c2),
         [Event.findByIdCall, Event.decryptCall, Event.validateMnemonicCall,
          Event.mnemonicToSeedCall, Event.glRegisterCall]) := by
    simp [register_node_core, hfind, hnone, hd2, CryptoService.validate_mnemonic, hp2,
      CryptoService.mnemonic_to_seed, GreenlightService.register_node, hg2]
  simp [register_node_concurrent, hcore1, hcore2]

/-- Witness for the amended C4 at the concrete race scenario: both calls
return the credential blob and the second write wins. -/
theorem register_node_race_both_succeed_witness :
    register_node_concurrent toyCollab [raceUser] 5 6 1 raceRequest raceRequest
      = (.ok (toyCollab.b64Encode [1, 97, 97]), .ok (toyCollab.b64Encode [1, 97, 97]),
         UserRepository.update_device_credentials
           (UserRepository.update_device_credentials [raceUser] 5 1
             (toyCollab.b64Encode [1, 97, 97]))
           6 1 (toyCollab.b64Encode [1, 97, 97])) :=
  register_node_race_both_succeed toyCollab [raceUser] 5 6 1 raceRequest raceRequest
    raceUser [97] [97] [1, 97, 97] [97] [97] [1, 97, 97]
    (by decide) rfl (by decide) (by decide) (by decide)
    (by decide) (by decide) (by decide)
